import Mathlib

/-
Verification of the POSIX synchronization layer (posix_synch.c).

The C file wraps pthread mutexes and condition variables.  Native pthread
calls can fail at the whim of the OS, so each embedded function takes the
return values of the native calls it performs as explicit oracle
parameters (a `Nat`, zero meaning success, exactly as the C code tests
`!= 0`).  Allocation success is likewise an oracle (`Bool`).  The embedding
records the allocator traffic (alloc/free events with their sizes) and the
writes to the caller-supplied out-parameter, so that the error-atomicity
claims are statable.  Fatal paths (`nni_panic`, which never returns) are
modelled by a dedicated constructor of the result type.
-/

namespace PosixSynch

/-- The recoverable nng error codes used by this file. -/
inductive nng_err where
  | NNG_ENOMEM
  | NNG_EBUSY
  | NNG_ETIMEDOUT
deriving DecidableEq, Repr

/-- Result of one operation: normal return value, recoverable error code,
or a call to nni_panic (which terminates the process; the argument is the
diagnostic message). -/
inductive Outcome (α : Type) where
  | ok : α → Outcome α
  | err : nng_err → Outcome α
  | fatal : String → Outcome α
deriving DecidableEq, Repr

/-- True exactly on the fatal (nni_panic) outcome. -/
def Outcome.isFatal : Outcome α → Bool
  | .fatal _ => true
  | _ => false

/-- True exactly on the recoverable-error outcome. -/
def Outcome.isErr : Outcome α → Bool
  | .err _ => true
  | _ => false

/-- One allocator event, carrying the size passed to nni_alloc / nni_free. -/
inductive AllocEvent where
  | alloc : Nat → AllocEvent
  | free : Nat → AllocEvent
deriving DecidableEq, Repr

/-- Sizes of the successful allocations in a trace. -/
def allocSizes (evs : List AllocEvent) : List Nat :=
  evs.filterMap fun e => match e with
    | .alloc n => some n
    | .free _ => none

/-- Sizes of the releases in a trace. -/
def freeSizes (evs : List AllocEvent) : List Nat :=
  evs.filterMap fun e => match e with
    | .free n => some n
    | .alloc _ => none

/-- POSIX mutex types relevant here. -/
inductive pthread_mutextype where
  | PTHREAD_MUTEX_DEFAULT
  | PTHREAD_MUTEX_ERRORCHECK
deriving DecidableEq, Repr

/-- Model of pthread_mutexattr_t: the only attribute this code touches is
the mutex type. -/
structure pthread_mutexattr_t where
  mtype : pthread_mutextype
deriving DecidableEq, Repr

/-- Model of an initialized pthread_mutex_t: it remembers the type it was
configured with. -/
structure pthread_mutex_t where
  mtype : pthread_mutextype
deriving DecidableEq, Repr

/-- Value produced by a successful pthread_mutexattr_init. -/
def pthread_mutexattr_init_val : pthread_mutexattr_t :=
  { mtype := .PTHREAD_MUTEX_DEFAULT }

/-- Effect of pthread_mutexattr_settype on the attribute value. -/
def pthread_mutexattr_settype (a : pthread_mutexattr_t)
    (t : pthread_mutextype) : pthread_mutexattr_t :=
  { a with mtype := t }

/-- Value stored in the mutex by a successful pthread_mutex_init with the
given attribute. -/
def pthread_mutex_init_val (a : pthread_mutexattr_t) : pthread_mutex_t :=
  { mtype := a.mtype }

/-- struct nni_mutex: wraps one pthread mutex. -/
structure nni_mutex where
  mx : pthread_mutex_t
deriving DecidableEq, Repr

/-- Modelled from the spec: the global `pthread_mutexattr_t nni_mutexattr`
is declared `extern` in posix_synch.c and its definition is not part of
this fragment; per the spec every Mutex, from either lifecycle shape, is
configured for error-checking behavior, so the global attribute carries
PTHREAD_MUTEX_ERRORCHECK. -/
def nni_mutexattr : pthread_mutexattr_t :=
  { mtype := .PTHREAD_MUTEX_ERRORCHECK }

/-- sizeof (struct nni_mutex), kept symbolic. -/
def sizeof_nni_mutex : Nat := 1

/-- Result record of a constructor call: the returned code / handle, the
allocator trace, and the list of values written through the caller's
out-parameter. -/
structure CreateOut (α : Type) where
  res : Outcome α
  events : List AllocEvent
  outw : List α
deriving DecidableEq, Repr

/-- nni_mutex_init: in-place construction in caller storage.  Oracle:
the return value of pthread_mutex_init (with the global nni_mutexattr). -/
def nni_mutex_init (initRv : Nat) : CreateOut nni_mutex :=
  if initRv ≠ 0 then
    { res := .err .NNG_ENOMEM, events := [], outw := [] }
  else
    { res := .ok { mx := pthread_mutex_init_val nni_mutexattr },
      events := [], outw := [] }

/-- nni_mutex_create: heap-handle construction.  Oracles: allocation
success, then the return values of pthread_mutexattr_init,
pthread_mutexattr_settype, pthread_mutex_init and
pthread_mutexattr_destroy, in the order the C code makes those calls.
Note the C code computes rv = pthread_mutex_init before checking the
attribute-destroy result, and panics on a destroy failure before looking
at rv. -/
def nni_mutex_create (allocOk : Bool) (attrInitRv settypeRv mutexInitRv
    attrDestroyRv : Nat) : CreateOut nni_mutex :=
  if ¬ allocOk then
    { res := .err .NNG_ENOMEM, events := [], outw := [] }
  else if attrInitRv ≠ 0 then
    { res := .err .NNG_ENOMEM,
      events := [.alloc sizeof_nni_mutex, .free sizeof_nni_mutex],
      outw := [] }
  else if settypeRv ≠ 0 then
    { res := .fatal "pthread_mutexattr_settype failed",
      events := [.alloc sizeof_nni_mutex], outw := [] }
  else
    let attr := pthread_mutexattr_settype pthread_mutexattr_init_val
      .PTHREAD_MUTEX_ERRORCHECK
    let m : nni_mutex := { mx := pthread_mutex_init_val attr }
    if attrDestroyRv ≠ 0 then
      { res := .fatal "pthread_mutexattr_destroy failed",
        events := [.alloc sizeof_nni_mutex], outw := [] }
    else if mutexInitRv ≠ 0 then
      { res := .err .NNG_ENOMEM,
        events := [.alloc sizeof_nni_mutex, .free sizeof_nni_mutex],
        outw := [] }
    else
      { res := .ok m, events := [.alloc sizeof_nni_mutex], outw := [m] }

/-- POSIX errno value for EBUSY (any fixed nonzero value; the code only
tests the trylock result against 0). -/
def EBUSY : Nat := 16

/-- Native pthread_mutex_trylock on a mutex whose held/free state is
given: EBUSY when already held, 0 when acquired.  Trylock never blocks. -/
def pthread_mutex_trylock (held : Bool) : Nat :=
  if held then EBUSY else 0

/-- nni_mutex_tryenter: maps any nonzero trylock result to NNG_EBUSY,
zero to success; no panic path exists. -/
def nni_mutex_tryenter (trylockRv : Nat) : Outcome Unit :=
  if trylockRv ≠ 0 then .err .NNG_EBUSY else .ok ()

/-- Linux clockid value CLOCK_REALTIME; the code only compares
NNG_USE_CLOCKID against it. -/
def CLOCK_REALTIME : Nat := 0

/-- Linux clockid value CLOCK_MONOTONIC. -/
def CLOCK_MONOTONIC : Nat := 1

/-- Model of pthread_condattr_t: the only attribute this code touches is
the clock id. -/
structure pthread_condattr_t where
  clock : Nat
deriving DecidableEq, Repr

/-- Value produced by a successful pthread_condattr_init (default clock
is CLOCK_REALTIME). -/
def pthread_condattr_init_val : pthread_condattr_t :=
  { clock := CLOCK_REALTIME }

/-- Effect of pthread_condattr_setclock on the attribute value. -/
def pthread_condattr_setclock (a : pthread_condattr_t)
    (c : Nat) : pthread_condattr_t :=
  { a with clock := c }

/-- The function-static state of nni_cond_attr: the one-time flag
`static int init` and the cached `static pthread_condattr_t attr`. -/
structure CondAttrState where
  init : Bool
  attr : pthread_condattr_t
deriving DecidableEq, Repr

/-- State of the statics before any call: init is zero, attr holds
indeterminate storage (modelled as the default value). -/
def condAttrState0 : CondAttrState :=
  { init := false, attr := pthread_condattr_init_val }

/-- Events on the internal static lock mx of nni_cond_attr. -/
inductive LockEvent where
  | lock
  | unlock
deriving DecidableEq, Repr

/-- Result record of nni_cond_attr: returned code (carrying the attribute
pointer written through attrpp, none standing for NULL), the static state
after the call, and the operations on the internal lock. -/
structure CondAttrOut where
  res : Outcome (Option pthread_condattr_t)
  state : CondAttrState
  locks : List LockEvent
deriving DecidableEq, Repr

/-- nni_cond_attr.  Build configuration enters as parameters:
useGettimeofday is whether NNG_USE_GETTIMEOFDAY is defined, clockid is
NNG_USE_CLOCKID.  When the wall-clock branch is compiled, NULL is
returned with success.  Otherwise the fast path reuses the cached
attribute when init is set; the slow path takes the static lock,
initializes and configures the attribute (oracles condattrInitRv and
setclockRv are the native return values), and publishes it.  A setclock
failure panics. -/
def nni_cond_attr (useGettimeofday : Bool) (clockid : Nat)
    (st : CondAttrState) (condattrInitRv setclockRv : Nat) : CondAttrOut :=
  if useGettimeofday ∨ clockid = CLOCK_REALTIME then
    { res := .ok none, state := st, locks := [] }
  else if st.init then
    { res := .ok (some st.attr), state := st, locks := [] }
  else if condattrInitRv ≠ 0 then
    { res := .err .NNG_ENOMEM, state := st, locks := [.lock, .unlock] }
  else if setclockRv ≠ 0 then
    { res := .fatal "condattr_setclock", state := st, locks := [.lock] }
  else
    let a := pthread_condattr_setclock pthread_condattr_init_val clockid
    { res := .ok (some a), state := { init := true, attr := a },
      locks := [.lock, .unlock] }

/-- Model of an initialized pthread_cond_t: it remembers the clock it was
initialized with (a NULL attribute gives the default CLOCK_REALTIME). -/
structure pthread_cond_t where
  clock : Nat
deriving DecidableEq, Repr

/-- Value stored in the condition variable by a successful
pthread_cond_init with the given (possibly NULL) attribute. -/
def pthread_cond_init_val (attrp : Option pthread_condattr_t) :
    pthread_cond_t :=
  match attrp with
  | none => { clock := CLOCK_REALTIME }
  | some a => { clock := a.clock }

/-- struct nni_cond: the native condition variable plus the non-owning
back reference c->mx = &mx->mx to the native lock of the mutex supplied
at construction. -/
structure nni_cond where
  mx : pthread_mutex_t
  cv : pthread_cond_t
deriving DecidableEq, Repr

/-- sizeof (struct nni_cond), kept symbolic. -/
def sizeof_nni_cond : Nat := 2

/-- Result record of nni_cond_create: returned code / handle, the static
state of nni_cond_attr after the call, the allocator trace, and the
writes through cvp. -/
structure CondCreateOut where
  res : Outcome nni_cond
  state : CondAttrState
  events : List AllocEvent
  outw : List nni_cond
deriving DecidableEq, Repr

/-- nni_cond_create: resolves the clock attribute (returning its error
code unchanged on failure), allocates the handle, records the back
reference to the supplied mutex, and initializes the native condition
variable with the resolved attribute; a native init failure frees the
handle and returns NNG_ENOMEM.  Oracles as in nni_cond_attr, plus
allocation success and the pthread_cond_init return value. -/
def nni_cond_create (useGettimeofday : Bool) (clockid : Nat)
    (st : CondAttrState) (condattrInitRv setclockRv : Nat)
    (mx : nni_mutex) (allocOk : Bool) (condInitRv : Nat) : CondCreateOut :=
  let aout := nni_cond_attr useGettimeofday clockid st condattrInitRv
    setclockRv
  match aout.res with
  | .err e => { res := .err e, state := aout.state, events := [], outw := [] }
  | .fatal s =>
    { res := .fatal s, state := aout.state, events := [], outw := [] }
  | .ok attrp =>
    if ¬ allocOk then
      { res := .err .NNG_ENOMEM, state := aout.state, events := [],
        outw := [] }
    else
      let c : nni_cond := { mx := mx.mx, cv := pthread_cond_init_val attrp }
      if condInitRv ≠ 0 then
        { res := .err .NNG_ENOMEM, state := aout.state,
          events := [.alloc sizeof_nni_cond, .free sizeof_nni_cond],
          outw := [] }
      else
        { res := .ok c, state := aout.state,
          events := [.alloc sizeof_nni_cond], outw := [c] }

/-- POSIX errno value for ETIMEDOUT (Linux value; the code compares the
native timedwait result against it and against 0). -/
def ETIMEDOUT : Nat := 110

/-- struct timespec as filled in by nni_cond_timedwait. -/
structure timespec where
  tv_sec : Nat
  tv_nsec : Nat
deriving DecidableEq, Repr

/-- The absolute deadline nni_cond_timedwait passes to
pthread_cond_timedwait: usec += nni_clock() in uint64_t arithmetic, then
tv_sec = usec / 1000000 and tv_nsec = (usec % 10000) * 1000, exactly as
written in the C source. -/
def nni_cond_deadline (clock usec : Nat) : timespec :=
  let u := (usec + clock) % 2 ^ 64
  { tv_sec := u / 1000000, tv_nsec := (u % 10000) * 1000 }

/-- nni_cond_timedwait: computes the deadline from the current monotonic
clock reading and the offset, performs the native timed wait (oracle
nativeRv is its return value), maps ETIMEDOUT to NNG_ETIMEDOUT, 0 to
success, and panics on anything else. -/
def nni_cond_timedwait (clock usec : Nat) (nativeRv : Nat) :
    Outcome Unit × timespec :=
  let ts := nni_cond_deadline clock usec
  if nativeRv = ETIMEDOUT then
    (.err .NNG_ETIMEDOUT, ts)
  else if nativeRv ≠ 0 then
    (.fatal "pthread_cond_timedwait returned", ts)
  else
    (.ok (), ts)

/-- Claim C1 (code defect): the deadline handed to the native timed wait
does not carry the sub-second microsecond remainder converted to
nanoseconds.  At nni_clock() = 0 and usec = 999999 the code passes
tv_nsec = (999999 % 10000) * 1000 = 9999000, whereas the claimed value is
(999999 % 1000000) * 1000 = 999999000. -/
theorem nni_cond_timedwait_nsec_defect :
    (nni_cond_timedwait 0 999999 0).2 =
      { tv_sec := 0, tv_nsec := 9999000 } ∧
    (999999 % 1000000) * 1000 = 999999000 ∧
    (9999000 : Nat) ≠ 999999000 := by
  refine ⟨rfl, by norm_num, by norm_num⟩

/-- Claim C3: nni_mutex_tryenter returns NNG_EBUSY when the mutex is
already held (the native trylock reports EBUSY), success when it is free,
and has no fatal path for any native result. -/
theorem nni_mutex_tryenter_busy_or_ok :
    ∀ (held : Bool) (rv : Nat),
      nni_mutex_tryenter (pthread_mutex_trylock held) =
        (if held then .err .NNG_EBUSY else .ok ()) ∧
      (nni_mutex_tryenter rv).isFatal = false := by
  intro held rv
  refine ⟨?_, ?_⟩
  · cases held <;>
      simp [nni_mutex_tryenter, pthread_mutex_trylock, EBUSY]
  · by_cases h : rv = 0 <;>
      simp [nni_mutex_tryenter, h, Outcome.isFatal]

/-- Claim C4: nni_cond_timedwait returns NNG_ETIMEDOUT exactly when the
native timed wait reports ETIMEDOUT, success exactly when it returns 0,
and takes the fatal path exactly on every other native result. -/
theorem nni_cond_timedwait_error_classification :
    ∀ (clock usec rv : Nat),
      ((nni_cond_timedwait clock usec rv).1 = .err .NNG_ETIMEDOUT ↔
        rv = ETIMEDOUT) ∧
      ((nni_cond_timedwait clock usec rv).1 = .ok () ↔ rv = 0) ∧
      ((nni_cond_timedwait clock usec rv).1.isFatal = true ↔
        (rv ≠ ETIMEDOUT ∧ rv ≠ 0)) := by
  intro clock usec rv
  by_cases h1 : rv = ETIMEDOUT
  · subst h1
    simp [nni_cond_timedwait, Outcome.isFatal, ETIMEDOUT]
  · simp only [ETIMEDOUT] at h1 ⊢
    by_cases h0 : rv = 0 <;>
      simp [nni_cond_timedwait, Outcome.isFatal, ETIMEDOUT, h0, h1]

/-- Claim C7: nni_mutex_init performs no allocation, returns NNG_ENOMEM
exactly when the native mutex initialization fails, and on success yields
the mutex initialized with the global attribute. -/
theorem nni_mutex_init_enomem_iff :
    ∀ rv : Nat,
      (nni_mutex_init rv).events = [] ∧
      ((nni_mutex_init rv).res = .err .NNG_ENOMEM ↔ rv ≠ 0) ∧
      (rv = 0 → (nni_mutex_init rv).res =
        .ok { mx := pthread_mutex_init_val nni_mutexattr }) := by
  intro rv
  by_cases h : rv = 0 <;> simp [nni_mutex_init, h]

/-- Claim C2 counterexample: with allocation succeeding,
pthread_mutexattr_init failing (return 1) and every other native call
succeeding, nni_mutex_create returns NNG_ENOMEM and does not take the
fatal path — refuting both that NNG_ENOMEM is returned only when
allocation or the native mutex initialization fails, and that an
attribute-initialization failure is fatal. -/
theorem nni_mutex_create_attrinit_not_fatal :
    (nni_mutex_create true 1 0 0 0).res = .err .NNG_ENOMEM ∧
    (nni_mutex_create true 1 0 0 0).res.isFatal = false :=
  ⟨rfl, rfl⟩

/-- Claim C2 (amended): nni_mutex_create returns NNG_ENOMEM exactly when
allocation fails, or the attribute-object initialization fails, or the
native mutex initialization fails (with attribute setup and teardown
succeeding); configuring the attribute type or destroying the attribute
object failing is fatal. -/
theorem nni_mutex_create_error_classification :
    ∀ (allocOk : Bool) (aInit aSet mInit aDestroy : Nat),
      ((nni_mutex_create allocOk aInit aSet mInit aDestroy).res =
          .err .NNG_ENOMEM ↔
        (allocOk = false ∨ aInit ≠ 0 ∨
          (aSet = 0 ∧ aDestroy = 0 ∧ mInit ≠ 0))) ∧
      ((nni_mutex_create allocOk aInit aSet mInit aDestroy).res.isFatal =
          true ↔
        (allocOk = true ∧ aInit = 0 ∧ (aSet ≠ 0 ∨ aDestroy ≠ 0))) := by
  intro allocOk aInit aSet mInit aDestroy
  cases allocOk <;>
    by_cases ha : aInit = 0 <;>
    by_cases hs : aSet = 0 <;>
    by_cases hd : aDestroy = 0 <;>
    by_cases hm : mInit = 0 <;>
    simp [nni_mutex_create, Outcome.isFatal, ha, hs, hd, hm]

/-- Claim C8: every mutex successfully produced by either lifecycle shape
(heap-handle nni_mutex_create, in-place nni_mutex_init) has its native
lock configured with the error-checking type. -/
theorem nni_mutex_errorcheck :
    ∀ (allocOk : Bool) (aInit aSet mInit aDestroy iRv : Nat)
      (m m2 : nni_mutex),
      ((nni_mutex_create allocOk aInit aSet mInit aDestroy).res = .ok m →
        m.mx.mtype = .PTHREAD_MUTEX_ERRORCHECK) ∧
      ((nni_mutex_init iRv).res = .ok m2 →
        m2.mx.mtype = .PTHREAD_MUTEX_ERRORCHECK) := by
  intro allocOk aInit aSet mInit aDestroy iRv m m2
  constructor
  · intro h
    cases allocOk <;>
      by_cases ha : aInit = 0 <;>
      by_cases hs : aSet = 0 <;>
      by_cases hd : aDestroy = 0 <;>
      by_cases hm : mInit = 0 <;>
      simp [nni_mutex_create, ha, hs, hd, hm] at h <;>
      simp [← h, pthread_mutex_init_val, pthread_mutexattr_settype,
        pthread_mutexattr_init_val]
  · intro h
    by_cases hi : iRv = 0 <;> simp [nni_mutex_init, hi] at h <;>
      simp [← h, pthread_mutex_init_val, nni_mutexattr]

/-- Claim C5: when the build forces wall-clock time or the configured
clock id is CLOCK_REALTIME, nni_cond_attr returns success with a NULL
attribute and touches nothing; otherwise, once the one-time computation
has completed (init set), every call returns the same cached attribute,
leaves the static state unchanged, and performs no locking or
reconfiguration, regardless of the native oracles. -/
theorem nni_cond_attr_cached :
    ∀ (g : Bool) (cid : Nat) (st : CondAttrState) (r1 r2 : Nat),
      ((g = true ∨ cid = CLOCK_REALTIME) →
        nni_cond_attr g cid st r1 r2 =
          { res := .ok none, state := st, locks := [] }) ∧
      (¬ (g = true ∨ cid = CLOCK_REALTIME) → st.init = true →
        nni_cond_attr g cid st r1 r2 =
          { res := .ok (some st.attr), state := st, locks := [] }) := by
  intro g cid st r1 r2
  constructor
  · intro h
    simp [nni_cond_attr, h]
  · intro h hinit
    simp [nni_cond_attr, h, hinit]

/-- Claim C10: with the one-time flag still unset and on the monotonic
branch, a failing native attribute initialization makes nni_cond_attr
release its internal lock and return NNG_ENOMEM with the static state
unchanged (flag still unset, no attribute published), and a subsequent
call whose native calls succeed completes the computation, publishing the
attribute configured with the requested clock and setting the flag. -/
theorem nni_cond_attr_retryable :
    ∀ (g : Bool) (cid : Nat) (st : CondAttrState) (r1 r2 : Nat),
      (¬ (g = true ∨ cid = CLOCK_REALTIME) → st.init = false → r1 ≠ 0 →
        nni_cond_attr g cid st r1 r2 =
          { res := .err .NNG_ENOMEM, state := st,
            locks := [.lock, .unlock] }) ∧
      (¬ (g = true ∨ cid = CLOCK_REALTIME) → st.init = false →
        nni_cond_attr g cid st 0 0 =
          { res := .ok (some { clock := cid }),
            state := { init := true, attr := { clock := cid } },
            locks := [.lock, .unlock] }) := by
  intro g cid st r1 r2
  constructor
  · intro h hinit hr1
    simp [nni_cond_attr, h, hinit, hr1]
  · intro h hinit
    simp [nni_cond_attr, h, hinit, pthread_condattr_setclock,
      pthread_condattr_init_val]

/-- Claim C6 counterexample: with the monotonic branch compiled, the
one-time flag unset and the native attribute initialization failing
(return 1), while allocation succeeds (true) and pthread_cond_init would
succeed (return 0), nni_cond_create returns NNG_ENOMEM even though
neither allocation nor the native condition-variable initialization
failed — the empty allocator trace shows the handle was never even
allocated. -/
theorem nni_cond_create_attr_failure_enomem :
    (nni_cond_create false CLOCK_MONOTONIC condAttrState0 1 0
        { mx := { mtype := .PTHREAD_MUTEX_ERRORCHECK } } true 0).res =
      .err .NNG_ENOMEM ∧
    (nni_cond_create false CLOCK_MONOTONIC condAttrState0 1 0
        { mx := { mtype := .PTHREAD_MUTEX_ERRORCHECK } } true 0).events =
      [] :=
  ⟨rfl, rfl⟩

/-- Claim C6 (amended): a successful nni_cond_create records exactly the
supplied mutex's native lock and a condition variable initialized with
the attribute resolved by nni_cond_attr; it returns NNG_ENOMEM exactly
when clock-attribute resolution fails (its error code returned
unchanged), or the attribute resolves and allocation fails, or the
native condition-variable initialization fails. -/
theorem nni_cond_create_characterization :
    ∀ (g : Bool) (cid : Nat) (st : CondAttrState) (r1 r2 : Nat)
      (mx : nni_mutex) (aOk : Bool) (cInit : Nat) (c : nni_cond),
      ((nni_cond_create g cid st r1 r2 mx aOk cInit).res = .ok c →
        c.mx = mx.mx ∧
        ∃ attrp, (nni_cond_attr g cid st r1 r2).res = .ok attrp ∧
          c.cv = pthread_cond_init_val attrp) ∧
      ((nni_cond_create g cid st r1 r2 mx aOk cInit).res =
          .err .NNG_ENOMEM ↔
        ((nni_cond_attr g cid st r1 r2).res = .err .NNG_ENOMEM ∨
          (∃ attrp, (nni_cond_attr g cid st r1 r2).res = .ok attrp ∧
            (aOk = false ∨ cInit ≠ 0)))) := by
  intro g cid st r1 r2 mx aOk cInit c
  refine ⟨?_, ?_⟩
  · intro h
    cases hres : (nni_cond_attr g cid st r1 r2).res with
    | ok ap =>
      cases aOk with
      | false => simp [nni_cond_create, hres] at h
      | true =>
        by_cases hc : cInit = 0
        · simp [nni_cond_create, hres, hc] at h
          refine ⟨?_, ap, rfl, ?_⟩ <;> simp [← h]
        · simp [nni_cond_create, hres, hc] at h
    | err e => simp [nni_cond_create, hres] at h
    | fatal s => simp [nni_cond_create, hres] at h
  · cases hres : (nni_cond_attr g cid st r1 r2).res with
    | ok ap =>
      cases aOk with
      | false => simp [nni_cond_create, hres]
      | true =>
        by_cases hc : cInit = 0 <;> simp [nni_cond_create, hres, hc]
    | err e => simp [nni_cond_create, hres]
    | fatal s => simp [nni_cond_create, hres]

/-- Claim C9: on every recoverable failure of nni_mutex_create and
nni_cond_create, the allocator trace balances (every allocated size is
released with the same size) and nothing is written through the
caller's out-parameter. -/
theorem constructor_error_atomicity :
    ∀ (allocOk : Bool) (aInit aSet mInit aDestroy : Nat)
      (g : Bool) (cid : Nat) (st : CondAttrState) (r1 r2 : Nat)
      (mx : nni_mutex) (aOk : Bool) (cInit : Nat),
      ((nni_mutex_create allocOk aInit aSet mInit aDestroy).res.isErr =
          true →
        allocSizes
            (nni_mutex_create allocOk aInit aSet mInit aDestroy).events =
          freeSizes
            (nni_mutex_create allocOk aInit aSet mInit aDestroy).events ∧
        (nni_mutex_create allocOk aInit aSet mInit aDestroy).outw = []) ∧
      ((nni_cond_create g cid st r1 r2 mx aOk cInit).res.isErr = true →
        allocSizes (nni_cond_create g cid st r1 r2 mx aOk cInit).events =
          freeSizes (nni_cond_create g cid st r1 r2 mx aOk cInit).events ∧
        (nni_cond_create g cid st r1 r2 mx aOk cInit).outw = []) := by
  intro allocOk aInit aSet mInit aDestroy g cid st r1 r2 mx aOk cInit
  refine ⟨?_, ?_⟩
  · intro h
    cases allocOk <;>
      by_cases ha : aInit = 0 <;>
      by_cases hs : aSet = 0 <;>
      by_cases hd : aDestroy = 0 <;>
      by_cases hm : mInit = 0 <;>
      simp [nni_mutex_create, ha, hs, hd, hm, allocSizes, freeSizes,
        Outcome.isErr] at h ⊢
  · intro h
    cases hres : (nni_cond_attr g cid st r1 r2).res with
    | ok ap =>
      cases aOk <;>
        by_cases hc : cInit = 0 <;>
        simp [nni_cond_create, hres, hc, allocSizes, freeSizes,
          Outcome.isErr] at h ⊢
    | err e =>
      simp [nni_cond_create, hres, allocSizes, freeSizes]
    | fatal s =>
      simp [nni_cond_create, hres, Outcome.isErr] at h

end PosixSynch
